import Mathlib

set_option linter.unusedVariables false

/-
  Verification of winpr/libwinpr/file/file.c (the non-_WIN32 branch).

  The file is shallowly embedded: machine integers are Nat (with explicit
  `% 2^64` / `% 2^32` where C unsigned wraparound matters), C pointers that
  may be NULL are Option, and OS calls (fopen, flock, fread, ftruncate,
  futimens, ...) are oracles passed in as explicit parameters describing
  the outcome the OS would produce.
-/

/-- GENERIC_WRITE access bit, 0x40000000. -/
def GENERIC_WRITE : Nat := 1073741824

/-- Creation disposition CREATE_NEW. -/
def CREATE_NEW : Nat := 1

/-- Creation disposition CREATE_ALWAYS. -/
def CREATE_ALWAYS : Nat := 2

/-- Creation disposition OPEN_EXISTING. -/
def OPEN_EXISTING : Nat := 3

/-- Creation disposition OPEN_ALWAYS. -/
def OPEN_ALWAYS : Nat := 4

/-- Creation disposition TRUNCATE_EXISTING. -/
def TRUNCATE_EXISTING : Nat := 5

/-- Share-mode flag FILE_SHARE_READ. -/
def FILE_SHARE_READ : Nat := 1

/-- Share-mode flag FILE_SHARE_WRITE. -/
def FILE_SHARE_WRITE : Nat := 2

/-- flock operation LOCK_SH (shared lock). -/
def LOCK_SH : Nat := 1

/-- flock operation LOCK_EX (exclusive lock). -/
def LOCK_EX : Nat := 2

/-- flock modifier LOCK_NB (non-blocking). -/
def LOCK_NB : Nat := 4

/-- LockFileEx flag LOCKFILE_FAIL_IMMEDIATELY. -/
def LOCKFILE_FAIL_IMMEDIATELY : Nat := 1

/-- LockFileEx flag LOCKFILE_EXCLUSIVE_LOCK. -/
def LOCKFILE_EXCLUSIVE_LOCK : Nat := 2

/-- Handle kind tag for file handles (only (in)equality of tags matters). -/
def HANDLE_TYPE_FILE : Nat := 1

/-- Last-error code ERROR_INVALID_HANDLE. -/
def ERROR_INVALID_HANDLE : Nat := 6

/-- Last-error code ERROR_NOT_ENOUGH_MEMORY. -/
def ERROR_NOT_ENOUGH_MEMORY : Nat := 8

/-- Last-error code ERROR_NO_DATA. -/
def ERROR_NO_DATA : Nat := 232

/-- errno value EWOULDBLOCK (Linux: EAGAIN = 11). -/
def EWOULDBLOCK : Nat := 11

/-- Sentinel INVALID_SET_FILE_POINTER, (DWORD)-1. -/
def INVALID_SET_FILE_POINTER : Nat := 4294967295

/-- Sentinel INVALID_FILE_SIZE, (DWORD)-1. -/
def INVALID_FILE_SIZE : Nat := 4294967295

/-- Seek origin FILE_BEGIN. -/
def FILE_BEGIN : Nat := 0

/-- Seek origin FILE_CURRENT. -/
def FILE_CURRENT : Nat := 1

/-- Seek origin FILE_END. -/
def FILE_END : Nat := 2

/-- Linux futimens sentinel UTIME_OMIT = ((1 << 30) - 2): leave the
timestamp unchanged. -/
def UTIME_OMIT : Nat := 1073741822

/-- EPOCH_DIFF constant of FileSetFileTime: the number of seconds between
1601-01-01 and 1970-01-01. -/
def EPOCH_DIFF : Nat := 11644473600

/-- Model of an open C stream (FILE*): its descriptor (fileno), current
offset and file size. -/
structure CStream where
  fd : Nat
  pos : Nat
  size : Nat
deriving DecidableEq

/-- Model of the WINPR_FILE record, with the fields file.c uses.  `hType`
models the `Type` tag set by WINPR_HANDLE_SET_TYPE_AND_MODE; `fp` is the
owned stream (none = NULL). -/
structure WINPR_FILE where
  hType : Nat
  fp : Option CStream
  lpFileName : String
  dwOpenMode : Nat
  dwShareMode : Nat
  dwFlagsAndAttributes : Nat
  dwCreationDisposition : Nat
  bLocked : Bool
deriving DecidableEq

/-- FileGetMode from file.c: maps (dwDesiredAccess, dwCreationDisposition)
to the fopen mode string and the create-first flag (the `*create`
out-parameter). -/
def FileGetMode (dwDesiredAccess dwCreationDisposition : Nat) : String × Bool :=
  let writeable := dwDesiredAccess &&& GENERIC_WRITE
  if dwCreationDisposition = CREATE_ALWAYS then
    ((if writeable ≠ 0 then "wb+" else "rwb"), true)
  else if dwCreationDisposition = CREATE_NEW then ("wb+", true)
  else if dwCreationDisposition = OPEN_ALWAYS then ("rb+", true)
  else if dwCreationDisposition = OPEN_EXISTING then ("rb+", false)
  else if dwCreationDisposition = TRUNCATE_EXISTING then ("wb+", false)
  else ("", false)

/-- Modelled from the spec: the mode-resolution table of §4.2, row by row,
with the spec's mode descriptions rendered as the concrete mode strings
they denote ("truncate+read/write" = "wb+", "read/write (non-standard)" =
"rwb", "read/write keep contents" = "rb+", empty mode = ""). -/
def specModeTable (access disposition : Nat) : String × Bool :=
  if disposition = CREATE_ALWAYS ∧ access &&& GENERIC_WRITE ≠ 0 then ("wb+", true)
  else if disposition = CREATE_ALWAYS then ("rwb", true)
  else if disposition = CREATE_NEW then ("wb+", true)
  else if disposition = OPEN_ALWAYS then ("rb+", true)
  else if disposition = OPEN_EXISTING then ("rb+", false)
  else if disposition = TRUNCATE_EXISTING then ("wb+", false)
  else ("", false)

/-- FileIsHandled from file.c: a handle is valid when it is non-null and
its kind tag is HANDLE_TYPE_FILE; otherwise SetLastError(
ERROR_INVALID_HANDLE) is performed and FALSE returned.  The pair returned
is (result, last-error after the call). -/
def FileIsHandled (handle : Option WINPR_FILE) (lastError : Nat) : Bool × Nat :=
  match handle with
  | none => (false, ERROR_INVALID_HANDLE)
  | some pFile =>
      if pFile.hType ≠ HANDLE_TYPE_FILE then (false, ERROR_INVALID_HANDLE)
      else (true, lastError)

/-- FileGetFd from file.c: validates via FileIsHandled, then returns
fileno(file->fp).  Returns (descriptor or -1, last-error after the
call).  A NULL fp is undefined behaviour in the C code (fileno(NULL));
construction never produces such a handle, modelled as -1. -/
def FileGetFd (handle : Option WINPR_FILE) (lastError : Nat) : Int × Nat :=
  let ih := FileIsHandled handle lastError
  if !ih.1 then (-1, ih.2)
  else
    match handle with
    | none => (-1, ih.2)
    | some file =>
        match file.fp with
        | none => (-1, ih.2)
        | some s => ((s.fd : Int), ih.2)

/-- Observable outcome of FileCloseHandle: the boolean result, whether
fclose was called on the stream, whether the fp field was assigned NULL
before the record was freed, whether the name string and the record were
freed, and the last-error value after the call. -/
structure CloseResult where
  result : Bool
  streamReleased : Bool
  fpCleared : Bool
  nameFreed : Bool
  recordFreed : Bool
  lastErr : Nat
deriving DecidableEq

/-- FileCloseHandle from file.c: validates via FileIsHandled; if fp is
non-null and fileno(fp) > 2 it calls fclose and assigns fp = NULL (both
happen only in that branch); it always frees lpFileName and the record
and returns TRUE. -/
def FileCloseHandle (handle : Option WINPR_FILE) (lastError : Nat) : CloseResult :=
  let ih := FileIsHandled handle lastError
  if !ih.1 then
    { result := false, streamReleased := false, fpCleared := false,
      nameFreed := false, recordFreed := false, lastErr := ih.2 }
  else
    match handle with
    | none =>
        { result := false, streamReleased := false, fpCleared := false,
          nameFreed := false, recordFreed := false, lastErr := ih.2 }
    | some file =>
        match file.fp with
        | none =>
            { result := true, streamReleased := false, fpCleared := false,
              nameFreed := true, recordFreed := true, lastErr := ih.2 }
        | some s =>
            if s.fd > 2 then
              { result := true, streamReleased := true, fpCleared := true,
                nameFreed := true, recordFreed := true, lastErr := ih.2 }
            else
              { result := true, streamReleased := false, fpCleared := false,
                nameFreed := true, recordFreed := true, lastErr := ih.2 }

/-- Outcome of FileLockFileEx: the handle state after the call, the
boolean result, the flock operation requested of the OS (none when flock
was never reached), and the last-error value after the call. -/
structure LockResult where
  state : Option WINPR_FILE
  result : Bool
  flockRequested : Option Nat
  lastErr : Nat
deriving DecidableEq

/-- FileLockFileEx from file.c: fails on a null handle; fails if
bLocked is already set; fails if an overlapped structure is passed;
otherwise requests LOCK_EX or LOCK_SH (plus LOCK_NB when
LOCKFILE_FAIL_IMMEDIATELY is set) from flock, whose outcome is the
oracle `flockOk`; on success sets bLocked.  No path calls SetLastError. -/
def FileLockFileEx (hFile : Option WINPR_FILE) (dwFlags : Nat)
    (lpOverlapped : Bool) (flockOk : Bool) (lastError : Nat) : LockResult :=
  match hFile with
  | none => { state := none, result := false, flockRequested := none, lastErr := lastError }
  | some pFile =>
      if pFile.bLocked then
        { state := some pFile, result := false, flockRequested := none, lastErr := lastError }
      else if lpOverlapped then
        { state := some pFile, result := false, flockRequested := none, lastErr := lastError }
      else
        let lock := if dwFlags &&& LOCKFILE_EXCLUSIVE_LOCK ≠ 0 then LOCK_EX else LOCK_SH
        let lock := if dwFlags &&& LOCKFILE_FAIL_IMMEDIATELY ≠ 0 then lock ||| LOCK_NB else lock
        if flockOk then
          { state := some { pFile with bLocked := true }, result := true,
            flockRequested := some lock, lastErr := lastError }
        else
          { state := some pFile, result := false,
            flockRequested := some lock, lastErr := lastError }

/-- FileUnlockFile from file.c: fails on a null handle; fails if bLocked
is not set; otherwise performs flock(fd, LOCK_UN) (oracle `flockOk`) and
returns its outcome.  The source never assigns bLocked = FALSE, so the
state carries bLocked unchanged in every branch.  Returned as (state
after the call, result, last-error after the call). -/
def FileUnlockFile (hFile : Option WINPR_FILE) (flockOk : Bool)
    (lastError : Nat) : Option WINPR_FILE × Bool × Nat :=
  match hFile with
  | none => (none, false, lastError)
  | some pFile =>
      if !pFile.bLocked then (some pFile, false, lastError)
      else if flockOk then (some pFile, true, lastError)
      else (some pFile, false, lastError)

/-- A concrete valid unlocked file handle on descriptor 3, used for
concrete evaluations. -/
def sampleFile : WINPR_FILE :=
  { hType := HANDLE_TYPE_FILE, fp := some { fd := 3, pos := 0, size := 0 },
    lpFileName := "testfile", dwOpenMode := 0, dwShareMode := 0,
    dwFlagsAndAttributes := 0, dwCreationDisposition := 0, bLocked := false }

/-- A concrete valid handle over standard-input (descriptor 0), used for
concrete evaluations of close. -/
def stdinFile : WINPR_FILE :=
  { hType := HANDLE_TYPE_FILE, fp := some { fd := 0, pos := 0, size := 0 },
    lpFileName := "stdin", dwOpenMode := 0, dwShareMode := 0,
    dwFlagsAndAttributes := 0, dwCreationDisposition := 0, bLocked := false }

/-- FileSetEndOfFile from file.c: checks only that the handle is non-null
(no kind-tag check, no SetLastError), then truncates the file at the
current position, ftruncate's outcome being the oracle `truncOk`.
Returns (result, stream after the call, last-error after the call).  A
NULL fp would be dereferenced by the C code (ftell(NULL)); modelled as
failure, unreachable for handles built by this module. -/
def FileSetEndOfFile (hFile : Option WINPR_FILE) (truncOk : Bool)
    (lastError : Nat) : Bool × Option CStream × Nat :=
  match hFile with
  | none => (false, none, lastError)
  | some pFile =>
      match pFile.fp with
      | none => (false, none, lastError)
      | some s =>
          if truncOk then (true, some { s with size := s.pos }, lastError)
          else (false, some s, lastError)

/-- FileSetFilePointer from file.c: checks only that the handle is
non-null (no kind-tag check, no SetLastError); an unknown move method
returns INVALID_SET_FILE_POINTER; otherwise fseek is performed (modelled
as failing exactly when the resulting offset would be negative) and the
new position is returned as ftell's value cast to DWORD.  The
lpDistanceToMoveHigh argument is ignored by the code.  Returns (return
value, stream after the call, last-error after the call). -/
def FileSetFilePointer (hFile : Option WINPR_FILE) (lDistanceToMove : Int)
    (dwMoveMethod : Nat) (lastError : Nat) : Nat × Option CStream × Nat :=
  match hFile with
  | none => (INVALID_SET_FILE_POINTER, none, lastError)
  | some pFile =>
      if dwMoveMethod ≠ FILE_BEGIN ∧ dwMoveMethod ≠ FILE_END ∧
          dwMoveMethod ≠ FILE_CURRENT then
        (INVALID_SET_FILE_POINTER, pFile.fp, lastError)
      else
        match pFile.fp with
        | none => (INVALID_SET_FILE_POINTER, none, lastError)
        | some s =>
            let newPos : Int :=
              if dwMoveMethod = FILE_BEGIN then lDistanceToMove
              else if dwMoveMethod = FILE_END then (s.size : Int) + lDistanceToMove
              else (s.pos : Int) + lDistanceToMove
            if newPos < 0 then (INVALID_SET_FILE_POINTER, some s, lastError)
            else (newPos.toNat % 4294967296, some { s with pos := newPos.toNat },
              lastError)

/-- FileGetFileSize from file.c: returns 0 on a null handle (no kind-tag
check, no SetLastError); otherwise it seeks to the end, reads the size,
restores the position, and returns the size as a DWORD; any of the
ftell/fseek calls failing (oracle `ioOk` false) yields
INVALID_FILE_SIZE.  Returns (size, last-error after the call). -/
def FileGetFileSize (Object : Option WINPR_FILE) (ioOk : Bool)
    (lastError : Nat) : Nat × Nat :=
  match Object with
  | none => (0, lastError)
  | some file =>
      match file.fp with
      | none => (0, lastError)
      | some s =>
          if !ioOk then (INVALID_FILE_SIZE, lastError)
          else (s.size % 4294967296, lastError)

/-- Item count returned by fread(ptr, size, nmemb, fp) when `avail` bytes
can be produced by the stream: zero when size or nmemb is zero, else the
number of complete items transferred. -/
def freadItems (size nmemb avail : Nat) : Nat :=
  if size = 0 ∨ nmemb = 0 then 0 else min nmemb (avail / size)

/-- Item count returned by fwrite(ptr, size, nmemb, fp) when the stream
accepts `accepted` bytes: zero when size or nmemb is zero, else the
number of complete items transferred. -/
def fwriteItems (size nmemb accepted : Nat) : Nat :=
  if size = 0 ∨ nmemb = 0 then 0 else min nmemb (accepted / size)

/-- Observable outcome of FileRead: the boolean result, the value stored
through lpNumberOfBytesRead (none when the pointer was null or never
written), and the last-error value after the call. -/
structure ReadResult where
  result : Bool
  bytesRead : Option Nat
  lastErr : Nat
deriving DecidableEq

/-- FileRead from file.c: fails on a null object; rejects any request
carrying an overlapped structure; otherwise performs
fread(lpBuffer, nNumberOfBytesToRead, 1, fp) — the stream can produce
`avail` bytes — treating an item count other than 1 as failure (setting
ERROR_NO_DATA when errno is EWOULDBLOCK), and finally stores
nNumberOfBytesToRead through lpNumberOfBytesRead whenever that pointer
is non-null, regardless of success. -/
def FileRead (Object : Option WINPR_FILE) (nNumberOfBytesToRead : Nat)
    (hasBytesReadPtr : Bool) (lpOverlapped : Bool) (avail : Nat)
    (errno : Nat) (lastError : Nat) : ReadResult :=
  match Object with
  | none => { result := false, bytesRead := none, lastErr := lastError }
  | some _ =>
      if lpOverlapped then
        { result := false, bytesRead := none, lastErr := lastError }
      else
        let io_status := freadItems nNumberOfBytesToRead 1 avail
        let le := if io_status ≠ 1 ∧ errno = EWOULDBLOCK then ERROR_NO_DATA
          else lastError
        { result := decide (io_status = 1),
          bytesRead := if hasBytesReadPtr then some nNumberOfBytesToRead else none,
          lastErr := le }

/-- FileWrite from file.c: fails on a null object; rejects any request
carrying an overlapped structure; otherwise performs
fwrite(lpBuffer, nNumberOfBytesToWrite, 1, fp) — the stream accepts
`accepted` bytes — failing when the item count is not 1, and stores
nNumberOfBytesToWrite through lpNumberOfBytesWritten only on success.
Returns (result, value stored through lpNumberOfBytesWritten, last-error
after the call); no path calls SetLastError. -/
def FileWrite (Object : Option WINPR_FILE) (nNumberOfBytesToWrite : Nat)
    (lpOverlapped : Bool) (accepted : Nat) (lastError : Nat) :
    Bool × Option Nat × Nat :=
  match Object with
  | none => (false, none, lastError)
  | some _ =>
      if lpOverlapped then (false, none, lastError)
      else if fwriteItems nNumberOfBytesToWrite 1 accepted ≠ 1 then
        (false, none, lastError)
      else (true, some nNumberOfBytesToWrite, lastError)

/-- Tick-to-timespec conversion of FileSetFileTime (the branch compiled
on Linux) for a present FILETIME argument t (the two DWORDs combined
into one 64-bit value): UINT64 arithmetic tmp = t - EPOCH_DIFF (with
wraparound), tmp /= 10, then (tv_sec, tv_nsec) = (tmp / 10000000,
tmp % 10000000). -/
def ticksToTimespec (t : Nat) : Nat × Nat :=
  let tmp := (t + 18446744073709551616 - EPOCH_DIFF) % 18446744073709551616
  let tmp2 := tmp / 10
  (tmp2 / 10000000, tmp2 % 10000000)

/-- The timespec FileSetFileTime builds for one FILETIME argument: the
(UTIME_OMIT, UTIME_OMIT) sentinel when the argument is NULL, the
converted value otherwise. -/
def timespecOfArg (arg : Option Nat) : Nat × Nat :=
  match arg with
  | none => (UTIME_OMIT, UTIME_OMIT)
  | some t => ticksToTimespec t

/-- Native timestamp metadata of a file: access and modification times as
(seconds, nanoseconds) pairs. -/
structure FileTimes where
  atime : Nat × Nat
  mtime : Nat × Nat
deriving DecidableEq

/-- Semantics of futimens(fd, times): a timestamp whose tv_nsec field is
UTIME_OMIT is left unchanged, otherwise it is overwritten with the
supplied value. -/
def futimensApply (cur : FileTimes) (t0 t1 : Nat × Nat) : FileTimes :=
  { atime := if t0.2 = UTIME_OMIT then cur.atime else t0,
    mtime := if t1.2 = UTIME_OMIT then cur.mtime else t1 }

/-- FileSetFileTime from file.c (the branch compiled on Linux): checks
only that the handle is non-null (no kind-tag check, no SetLastError);
builds times[0] from lpLastAccessTime and times[1] from lpLastWriteTime
via timespecOfArg; ignores lpCreationTime entirely; then calls
futimens, whose OS outcome is the oracle `futimensOk`.  Returns
(result, file times after the call, last-error after the call). -/
def FileSetFileTime (hFile : Option WINPR_FILE) (lpCreationTime
    lpLastAccessTime lpLastWriteTime : Option Nat) (cur : FileTimes)
    (futimensOk : Bool) (lastError : Nat) : Bool × FileTimes × Nat :=
  match hFile with
  | none => (false, cur, lastError)
  | some _ =>
      let t0 := timespecOfArg lpLastAccessTime
      let t1 := timespecOfArg lpLastWriteTime
      if futimensOk then (true, futimensApply cur t0 t1, lastError)
      else (false, cur, lastError)

/-- OS outcomes driving one run of FileCreateFileA: whether calloc,
_strdup, fopen(lpFileName, "ab"), freopen(lpFileName, mode, fp),
fopen(lpFileName, mode) and flock succeed, and the descriptor and size
of the stream that ends up opened. -/
structure CreateEnv where
  callocOk : Bool
  strdupOk : Bool
  fopenAbOk : Bool
  freopenOk : Bool
  fopenModeOk : Bool
  flockOk : Bool
  fd : Nat
  fsize : Nat
deriving DecidableEq

/-- Observable outcome of FileCreateFileA: the returned handle (none =
INVALID_HANDLE_VALUE), the last-error value after the call, whether the
record and the duplicated name string were allocated and whether each
was freed again before returning, the flock operation requested for the
share-mode lock (none when flock was never reached), and whether the
opened stream was released again before returning. -/
structure CreateResult where
  handle : Option WINPR_FILE
  lastErr : Nat
  recAllocated : Bool
  recFreed : Bool
  nameAllocated : Bool
  nameFreed : Bool
  flockRequested : Option Nat
  streamReleased : Bool
deriving DecidableEq

/-- FileCreateFileA from file.c: resolves the mode via FileGetMode;
calloc's the record (ERROR_NOT_ENOUGH_MEMORY and
INVALID_HANDLE_VALUE on failure); _strdup's the name (on failure frees
the record and fails likewise); when create-first is set, opens the path
with mode "ab" (on failure frees name and record and fails) and then
freopens it with the resolved mode; if the stream is still NULL, falls
back to fopen with the resolved mode; a NULL stream frees name and
record and fails; then, when dwShareMode requests FILE_SHARE_READ or
FILE_SHARE_WRITE, computes the flock operation (lock = LOCK_SH if
FILE_SHARE_READ, then lock = LOCK_EX if FILE_SHARE_WRITE) and performs
flock, on whose failure it runs FileCloseHandle on the freshly built
record and fails, and on whose success it sets bLocked.  The
lpSecurityAttributes and hTemplateFile arguments only get stored and are
not modelled. -/
def FileCreateFileA (lpFileName : String) (dwDesiredAccess dwShareMode
    dwCreationDisposition dwFlagsAndAttributes : Nat) (env : CreateEnv)
    (lastError : Nat) : CreateResult :=
  let mc := FileGetMode dwDesiredAccess dwCreationDisposition
  let create := mc.2
  if !env.callocOk then
    { handle := none, lastErr := ERROR_NOT_ENOUGH_MEMORY,
      recAllocated := false, recFreed := false, nameAllocated := false,
      nameFreed := false, flockRequested := none, streamReleased := false }
  else if !env.strdupOk then
    { handle := none, lastErr := ERROR_NOT_ENOUGH_MEMORY,
      recAllocated := true, recFreed := true, nameAllocated := false,
      nameFreed := false, flockRequested := none, streamReleased := false }
  else if create && !env.fopenAbOk then
    { handle := none, lastErr := lastError, recAllocated := true,
      recFreed := true, nameAllocated := true, nameFreed := true,
      flockRequested := none, streamReleased := false }
  else if !((create && env.freopenOk) || env.fopenModeOk) then
    { handle := none, lastErr := lastError, recAllocated := true,
      recFreed := true, nameAllocated := true, nameFreed := true,
      flockRequested := none, streamReleased := false }
  else
    let pFile : WINPR_FILE :=
      { hType := HANDLE_TYPE_FILE,
        fp := some { fd := env.fd, pos := 0, size := env.fsize },
        lpFileName := lpFileName, dwOpenMode := dwDesiredAccess,
        dwShareMode := dwShareMode,
        dwFlagsAndAttributes := dwFlagsAndAttributes,
        dwCreationDisposition := dwCreationDisposition, bLocked := false }
    let lock := if dwShareMode &&& FILE_SHARE_READ ≠ 0 then LOCK_SH else 0
    let lock := if dwShareMode &&& FILE_SHARE_WRITE ≠ 0 then LOCK_EX else lock
    if dwShareMode &&& (FILE_SHARE_READ ||| FILE_SHARE_WRITE) ≠ 0 then
      if !env.flockOk then
        let cr := FileCloseHandle (some pFile) lastError
        { handle := none, lastErr := cr.lastErr, recAllocated := true,
          recFreed := cr.recordFreed, nameAllocated := true,
          nameFreed := cr.nameFreed, flockRequested := some lock,
          streamReleased := cr.streamReleased }
      else
        { handle := some { pFile with bLocked := true }, lastErr := lastError,
          recAllocated := true, recFreed := false, nameAllocated := true,
          nameFreed := false, flockRequested := some lock,
          streamReleased := false }
    else
      { handle := some pFile, lastErr := lastError, recAllocated := true,
        recFreed := false, nameAllocated := true, nameFreed := false,
        flockRequested := none, streamReleased := false }

/-- A concrete handle whose kind tag (99) is not HANDLE_TYPE_FILE, used
for concrete evaluations of the dispatch operations. -/
def wrongKindFile : WINPR_FILE :=
  { hType := 99, fp := some { fd := 5, pos := 7, size := 42 },
    lpFileName := "wrong", dwOpenMode := 0, dwShareMode := 0,
    dwFlagsAndAttributes := 0, dwCreationDisposition := 0, bLocked := false }

/-- Claim C1: for every (desired-access, creation-disposition) pair the
mode resolver FileGetMode returns exactly the (mode, create-first) result
given by the table in §4.2 of the spec, including the empty-mode /
create-first-false result for every unlisted disposition. -/
theorem C1_mode_resolver_matches_spec_table :
    ∀ (dwDesiredAccess dwCreationDisposition : Nat),
      FileGetMode dwDesiredAccess dwCreationDisposition =
        specModeTable dwDesiredAccess dwCreationDisposition := by
  intro a d
  unfold FileGetMode specModeTable
  dsimp only
  split_ifs <;> simp_all

/-- Claim C2: the spec claims the per-handle lock state machine is
Unlocked -> Locked -> Unlocked, with a successful unlock transitioning
the state to Unlocked so that a second unlock fails with NotLocked.  The
code never clears bLocked: on a handle that was locked and then
successfully unlocked, the stored state still reads Locked and a second
unlock succeeds.  Evaluated at the failing input: a fresh valid handle,
lock(LOCKFILE_EXCLUSIVE_LOCK, no overlapped, flock succeeds), then two
unlocks with flock succeeding. -/
theorem C2_successful_unlock_does_not_reach_unlocked :
    (FileLockFileEx (some sampleFile) LOCKFILE_EXCLUSIVE_LOCK false true 0).result = true ∧
    (FileUnlockFile (FileLockFileEx (some sampleFile) LOCKFILE_EXCLUSIVE_LOCK false true 0).state
        true 0).2.1 = true ∧
    Option.map WINPR_FILE.bLocked
      (FileUnlockFile (FileLockFileEx (some sampleFile) LOCKFILE_EXCLUSIVE_LOCK false true 0).state
        true 0).1 = some true ∧
    (FileUnlockFile
      (FileUnlockFile (FileLockFileEx (some sampleFile) LOCKFILE_EXCLUSIVE_LOCK false true 0).state
        true 0).1 true 0).2.1 = true := by
  refine ⟨rfl, rfl, rfl, rfl⟩

/-- Claim C5 counterexample: closing a valid handle over descriptor 0
succeeds without releasing the stream, but the claim's assertion that in
that case "the stream reference is cleared" is false: the assignment
fp = NULL sits inside the fileno(fp) > 2 branch, so for descriptors
0, 1, 2 the reference is left in place (the record is then freed). -/
theorem C5_counterexample_fp_not_cleared_for_std_descriptor :
    (FileCloseHandle (some stdinFile) 0).result = true ∧
    (FileCloseHandle (some stdinFile) 0).streamReleased = false ∧
    (FileCloseHandle (some stdinFile) 0).fpCleared = false := by
  refine ⟨rfl, rfl, rfl⟩

/-- Claim C5 (amended): for every valid handle, close releases the
underlying stream if and only if its descriptor is greater than 2, and
clears the stream reference exactly in that same case (for descriptors
0, 1, 2 the stream is neither released nor its reference cleared; the
record is freed immediately anyway); in every case close frees the name
string and the handle record, returns success, and leaves the last-error
value unchanged. -/
theorem C5_amended_close_releases_iff_fd_gt_2 :
    ∀ (fp : Option CStream) (name : String) (om sm fa cd le : Nat) (bl : Bool),
      FileCloseHandle
        (some { hType := HANDLE_TYPE_FILE, fp := fp, lpFileName := name,
                dwOpenMode := om, dwShareMode := sm,
                dwFlagsAndAttributes := fa, dwCreationDisposition := cd,
                bLocked := bl }) le =
        { result := true,
          streamReleased := match fp with
            | none => false
            | some s => decide (2 < s.fd),
          fpCleared := match fp with
            | none => false
            | some s => decide (2 < s.fd),
          nameFreed := true, recordFreed := true, lastErr := le } := by
  intro fp name om sm fa cd le bl
  cases fp with
  | none => rfl
  | some s =>
      by_cases h : 2 < s.fd <;>
        simp [FileCloseHandle, FileIsHandled, HANDLE_TYPE_FILE, h]

/-- Claim C9: for every valid handle and length, read and write succeed
exactly when the whole requested byte count is transferred (so a short
transfer fails, and success reports the exact requested count through
the out-parameter), and any read or write carrying an overlapped
completion structure is rejected with failure. -/
theorem C9_exact_transfer_and_overlapped_rejected :
    ∀ (f : WINPR_FILE) (n avail acc errno le : Nat) (hasPtr : Bool),
      (FileRead (some f) n hasPtr true avail errno le).result = false ∧
      (FileWrite (some f) n true acc le).1 = false ∧
      (FileRead (some f) n hasPtr false avail errno le).result =
        (decide (0 < n) && decide (n ≤ avail)) ∧
      (FileRead (some f) n hasPtr false avail errno le).bytesRead =
        (if hasPtr then some n else none) ∧
      (FileWrite (some f) n false acc le).1 =
        (decide (0 < n) && decide (n ≤ acc)) ∧
      (FileWrite (some f) n false acc le).2.1 =
        (if 0 < n ∧ n ≤ acc then some n else none) := by
  intro f n avail acc errno le hasPtr
  refine ⟨rfl, rfl, ?_, rfl, ?_, ?_⟩
  · by_cases h0 : n = 0
    · simp [FileRead, freadItems, h0]
    · by_cases h1 : n ≤ avail
      · have hd : 1 ≤ avail / n :=
          (Nat.one_le_div_iff (Nat.pos_of_ne_zero h0)).mpr h1
        simp [FileRead, freadItems, h0, h1, Nat.pos_of_ne_zero h0,
          Nat.min_eq_left hd]
      · have hd : avail / n = 0 := Nat.div_eq_of_lt (Nat.lt_of_not_le h1)
        simp [FileRead, freadItems, h0, h1, hd]
  · by_cases h0 : n = 0
    · simp [FileWrite, fwriteItems, h0]
    · by_cases h1 : n ≤ acc
      · have hd : 1 ≤ acc / n :=
          (Nat.one_le_div_iff (Nat.pos_of_ne_zero h0)).mpr h1
        simp [FileWrite, fwriteItems, h0, h1, Nat.pos_of_ne_zero h0,
          Nat.min_eq_left hd]
      · have hd : acc / n = 0 := Nat.div_eq_of_lt (Nat.lt_of_not_le h1)
        simp [FileWrite, fwriteItems, h0, h1, hd]
  · by_cases h0 : n = 0
    · simp [FileWrite, fwriteItems, h0]
    · by_cases h1 : n ≤ acc
      · have hd : 1 ≤ acc / n :=
          (Nat.one_le_div_iff (Nat.pos_of_ne_zero h0)).mpr h1
        simp [FileWrite, fwriteItems, h0, h1, Nat.pos_of_ne_zero h0,
          Nat.min_eq_left hd]
      · have hd : acc / n = 0 := Nat.div_eq_of_lt (Nat.lt_of_not_le h1)
        simp [FileWrite, fwriteItems, h0, h1, hd, Nat.lt_of_not_le h1]

/-- Claim C10 counterexample: a read call that provides a bytes-read
out-parameter but also carries an overlapped structure fails with the
out-parameter left unwritten, so the claim's universal statement that
every failing read with a non-null out-parameter stores the full
requested length there is false at this input (object = valid handle,
length 4, out-parameter present, overlapped present). -/
theorem C10_counterexample_rejected_read_leaves_count_unwritten :
    (FileRead (some sampleFile) 4 true true 4 0 0).result = false ∧
    (FileRead (some sampleFile) 4 true true 4 0 0).bytesRead = none := by
  exact ⟨rfl, rfl⟩

/-- Claim C10 (amended): for every read call that passes the null-object
and overlapped rejections and provides a non-null bytes-read
out-parameter, the out-parameter is set to the full requested length
whether or not the read succeeds — in particular a read of n + 1 bytes
from a stream with nothing available fails yet reports n + 1 — so on
failure the reported count does not reflect the bytes actually
transferred and a caller must consult only the boolean result; on the
rejected paths (null object or overlapped present) the out-parameter is
left unwritten. -/
theorem C10_amended_count_reports_request_not_actual :
    ∀ (f : WINPR_FILE) (n avail errno le : Nat),
      (FileRead (some f) n true false avail errno le).bytesRead = some n ∧
      (FileRead (some f) (n + 1) true false 0 errno le).result = false ∧
      (FileRead (some f) (n + 1) true false 0 errno le).bytesRead = some (n + 1) := by
  intro f n avail errno le
  refine ⟨rfl, ?_, rfl⟩
  simp [FileRead, freadItems, Nat.zero_div]

/-- Claim C4 counterexample: the seek operation invoked on a null handle
refuses but leaves the last-error value untouched (0 rather than
ERROR_INVALID_HANDLE = 6), and the truncate operation invoked on a
non-null handle whose kind tag (99) is not HANDLE_TYPE_FILE performs no
validate check at all and proceeds to a successful truncation — both
contradicting the claim that every dispatch operation validates first
and sets last-error to invalid-handle. -/
theorem C4_counterexample_dispatch_skips_validation :
    (FileSetFilePointer none 0 FILE_BEGIN 0).2.2 = 0 ∧
    ERROR_INVALID_HANDLE ≠ 0 ∧
    (FileSetEndOfFile (some wrongKindFile) true 0).1 = true := by
  refine ⟨rfl, by decide, rfl⟩

/-- Claim C4 (amended): only close and get-descriptor run the validate
check (FileIsHandled), failing on a null or wrong-kind handle and
setting the process-visible last-error to invalid-handle; every other
dispatch operation (read, write, size, truncate, seek, lock, unlock,
set-time) refuses only a null handle — returning its failure value with
the last-error left unchanged and performing no kind-tag check. -/
theorem C4_amended_only_close_and_getfd_validate :
    ∀ (le n avail acc errno method flags : Nat) (f : WINPR_FILE) (off : Int)
      (hasPtr ov truncOk ioOk flockOk fo : Bool) (cur : FileTimes)
      (ca ta wa : Option Nat),
      (FileCloseHandle none le).result = false ∧
      (FileCloseHandle none le).lastErr = ERROR_INVALID_HANDLE ∧
      (FileCloseHandle (some f) le).result = decide (f.hType = HANDLE_TYPE_FILE) ∧
      (FileCloseHandle (some f) le).lastErr =
        (if f.hType = HANDLE_TYPE_FILE then le else ERROR_INVALID_HANDLE) ∧
      FileGetFd none le = (-1, ERROR_INVALID_HANDLE) ∧
      (FileGetFd (some f) le).2 =
        (if f.hType = HANDLE_TYPE_FILE then le else ERROR_INVALID_HANDLE) ∧
      FileRead none n hasPtr ov avail errno le =
        { result := false, bytesRead := none, lastErr := le } ∧
      FileWrite none n ov acc le = (false, none, le) ∧
      FileGetFileSize none ioOk le = (0, le) ∧
      FileSetEndOfFile none truncOk le = (false, none, le) ∧
      FileSetFilePointer none off method le =
        (INVALID_SET_FILE_POINTER, none, le) ∧
      FileLockFileEx none flags ov flockOk le =
        { state := none, result := false, flockRequested := none,
          lastErr := le } ∧
      FileUnlockFile none flockOk le = (none, false, le) ∧
      FileSetFileTime none ca ta wa cur fo le = (false, cur, le) := by
  intro le n avail acc errno method flags f off hasPtr ov truncOk ioOk
    flockOk fo cur ca ta wa
  refine ⟨rfl, rfl, ?_, ?_, rfl, ?_, rfl, rfl, rfl, rfl, rfl, rfl, rfl, rfl⟩
  · by_cases h : f.hType = HANDLE_TYPE_FILE
    · rcases hfp : f.fp with _ | s
      · simp [FileCloseHandle, FileIsHandled, h, hfp]
      · by_cases h2 : s.fd > 2 <;>
          simp [FileCloseHandle, FileIsHandled, h, hfp, h2]
    · simp [FileCloseHandle, FileIsHandled, h]
  · by_cases h : f.hType = HANDLE_TYPE_FILE
    · rcases hfp : f.fp with _ | s
      · simp [FileCloseHandle, FileIsHandled, h, hfp]
      · by_cases h2 : s.fd > 2 <;>
          simp [FileCloseHandle, FileIsHandled, h, hfp, h2]
    · simp [FileCloseHandle, FileIsHandled, h]
  · by_cases h : f.hType = HANDLE_TYPE_FILE
    · rcases hfp : f.fp with _ | s <;>
        simp [FileGetFd, FileIsHandled, h, hfp]
    · simp [FileGetFd, FileIsHandled, h]

/-- Claim C3: the claim says the whole-second part of the translated time
is T / 10^7 - 11644473600.  The code instead subtracts EPOCH_DIFF (a
value in seconds) directly from T (a value in 100-nanosecond ticks) and
then divides by 10 and again by 10^7 (by 10^8 in total).  Evaluated at
the failing input T = 116444736000000000 (the tick count of 1970-01-01,
whose translation should be second 0): the code produces second
1164447243 instead. -/
theorem C3_translation_subtracts_seconds_from_ticks :
    ticksToTimespec 116444736000000000 = (1164447243, 5552640) ∧
    116444736000000000 / 10000000 - EPOCH_DIFF = 0 ∧
    (ticksToTimespec 116444736000000000).1 ≠
      116444736000000000 / 10000000 - EPOCH_DIFF := by
  refine ⟨by decide, by decide, by decide⟩

/-- Claim C7: a set-time request whose access-time (respectively
write-time) argument is absent fills the corresponding timespec with the
(UTIME_OMIT, UTIME_OMIT) sentinel — which is not zero — so applying the
request through futimens leaves the file's existing access time
(respectively write time) unchanged, whatever the other argument and the
OS outcome are. -/
theorem C7_absent_time_argument_preserves_metadata :
    ∀ (f : WINPR_FILE) (ca ta wa : Option Nat) (cur : FileTimes)
      (fo : Bool) (le : Nat),
      (FileSetFileTime (some f) ca none wa cur fo le).2.1.atime = cur.atime ∧
      (FileSetFileTime (some f) ca ta none cur fo le).2.1.mtime = cur.mtime ∧
      timespecOfArg none = (UTIME_OMIT, UTIME_OMIT) ∧
      UTIME_OMIT ≠ 0 := by
  intro f ca ta wa cur fo le
  refine ⟨?_, ?_, rfl, by decide⟩
  · cases fo <;> simp [FileSetFileTime, timespecOfArg, futimensApply]
  · cases fo <;> simp [FileSetFileTime, timespecOfArg, futimensApply]

/-- Claim C6: a construction that returns the invalid-handle value has
freed exactly what it allocated: the record is freed precisely when it
was allocated and the construction failed, and likewise the duplicated
name string, so no failure path retains a partially-initialized owned
resource (and no success path frees what the returned handle owns). -/
theorem C6_failed_construction_retains_nothing :
    ∀ (name : String) (acc sh disp fa le : Nat) (env : CreateEnv),
      (FileCreateFileA name acc sh disp fa env le).recFreed =
        ((FileCreateFileA name acc sh disp fa env le).recAllocated &&
          (FileCreateFileA name acc sh disp fa env le).handle.isNone) ∧
      (FileCreateFileA name acc sh disp fa env le).nameFreed =
        ((FileCreateFileA name acc sh disp fa env le).nameAllocated &&
          (FileCreateFileA name acc sh disp fa env le).handle.isNone) := by
  intro name acc sh disp fa le env
  obtain ⟨co, so, abo, fro, fmo, flo, fd, fsz⟩ := env
  rcases hmc : FileGetMode acc disp with ⟨mode, create⟩
  by_cases hsh : sh &&& (FILE_SHARE_READ ||| FILE_SHARE_WRITE) = 0 <;>
    by_cases hfd : 2 < fd <;>
      cases co <;> cases so <;> cases create <;> cases abo <;> cases fro <;>
        cases fmo <;> cases flo <;>
          simp [FileCreateFileA, FileCloseHandle, FileIsHandled, hmc, hsh, hfd]

/-- Helper: a value that shares a bit with x ||| y shares a bit with x or
with y. -/
theorem land_lor_ne_zero_split (a x y : Nat) (h : a &&& (x ||| y) ≠ 0) :
    a &&& x ≠ 0 ∨ a &&& y ≠ 0 := by
  by_contra hc
  push_neg at hc
  refine h (Nat.eq_of_testBit_eq fun i => ?_)
  have hx := congrArg (fun m => Nat.testBit m i) hc.1
  have hy := congrArg (fun m => Nat.testBit m i) hc.2
  simp only [Nat.testBit_and, Nat.testBit_or, Nat.zero_testBit] at hx hy ⊢
  revert hx hy
  cases Nat.testBit a i <;> cases Nat.testBit x i <;> cases Nat.testBit y i <;>
    simp

/-- Claim C8: when the share-mode flags request shared-read or
shared-write access and the open stages succeed, FileCreateFileA requests
the corresponding advisory lock (shared for shared-read, exclusive for
shared-write) right after opening; when flock succeeds the returned
handle has lock state Locked, and when flock fails the fresh handle is
closed (record and name freed, the stream released when its descriptor
exceeds 2) and the whole construction returns the invalid-handle
value. -/
theorem C8_share_mode_locks_or_fails_construction (name : String)
    (acc sh disp fa le : Nat) (env : CreateEnv)
    (hc : env.callocOk = true) (hs : env.strdupOk = true)
    (hab : env.fopenAbOk = true) (hm : env.fopenModeOk = true)
    (hsh : sh &&& (FILE_SHARE_READ ||| FILE_SHARE_WRITE) ≠ 0) :
    (FileCreateFileA name acc sh disp fa env le).flockRequested =
      some (if sh &&& FILE_SHARE_WRITE ≠ 0 then LOCK_EX else LOCK_SH) ∧
    (env.flockOk = true →
      ∃ h, (FileCreateFileA name acc sh disp fa env le).handle = some h ∧
        h.bLocked = true) ∧
    (env.flockOk = false →
      (FileCreateFileA name acc sh disp fa env le).handle = none ∧
      (FileCreateFileA name acc sh disp fa env le).recFreed = true ∧
      (FileCreateFileA name acc sh disp fa env le).nameFreed = true ∧
      (FileCreateFileA name acc sh disp fa env le).streamReleased =
        decide (2 < env.fd)) := by
  rcases hmc : FileGetMode acc disp with ⟨mode, create⟩
  have hrw : sh &&& FILE_SHARE_WRITE = 0 → sh &&& FILE_SHARE_READ ≠ 0 := by
    intro hw
    rcases land_lor_ne_zero_split sh FILE_SHARE_READ FILE_SHARE_WRITE hsh with hr | hw2
    · exact hr
    · exact absurd hw hw2
  cases create <;>
    by_cases hfo : env.flockOk <;>
      by_cases hw : sh &&& FILE_SHARE_WRITE = 0 <;>
        by_cases hfd : 2 < env.fd <;>
          first
          | simp [FileCreateFileA, FileCloseHandle, FileIsHandled, hmc, hc,
              hs, hab, hm, hsh, hfo, hw, hfd, hrw hw]
          | simp [FileCreateFileA, FileCloseHandle, FileIsHandled, hmc, hc,
              hs, hab, hm, hsh, hfo, hw, hfd]

/-- Witness for C8 at a concrete input: all open stages succeed,
share-mode FILE_SHARE_WRITE, flock succeeds. -/
theorem C8_share_mode_locks_or_fails_construction_witness :
    (FileCreateFileA "shared" GENERIC_WRITE FILE_SHARE_WRITE CREATE_ALWAYS 0
        { callocOk := true, strdupOk := true, fopenAbOk := true,
          freopenOk := true, fopenModeOk := true, flockOk := true,
          fd := 3, fsize := 0 } 0).flockRequested =
      some (if FILE_SHARE_WRITE &&& FILE_SHARE_WRITE ≠ 0 then LOCK_EX
        else LOCK_SH) := by
  exact (C8_share_mode_locks_or_fails_construction "shared" GENERIC_WRITE
    FILE_SHARE_WRITE CREATE_ALWAYS 0 0
    { callocOk := true, strdupOk := true, fopenAbOk := true,
      freopenOk := true, fopenModeOk := true, flockOk := true,
      fd := 3, fsize := 0 } rfl rfl rfl rfl (by decide)).1
